import Mathlib

/-!
Shallow embedding of the four on-chain program stubs under `src/programs/`
(escrow, points, quests, registry).  Each unit declares a program identifier
via `declare_id!` and exposes one entry point whose body logs one fixed
string via `msg!` and returns `Ok(())`.  The hosting runtime's effects are
made explicit: `msg!` becomes a log list in the invocation result, and the
persisted account store is threaded through the handler unchanged.
-/

namespace Fartnode

/-- The four stub program units of the repository, one per crate under
`src/programs/`. -/
inductive ProgramUnit where
  | escrow
  | points
  | quests
  | registry
deriving DecidableEq

/-- The string passed to `declare_id!` in each unit's `lib.rs` (line 3 of
each file). -/
def declaredId : ProgramUnit → String
  | .escrow   => "33333333333333333333333333333333"
  | .points   => "11111111111111111111111111111111"
  | .quests   => "22222222222222222222222222222222"
  | .registry => "44444444444444444444444444444444"

/-- The subsystem name of each unit, as it appears in the crate path
`src/programs/<name>/src/lib.rs` and inside its log string. -/
def unitName : ProgramUnit → String
  | .escrow   => "escrow"
  | .points   => "points"
  | .quests   => "quests"
  | .registry => "registry"

/-- The literal string each unit passes to `msg!` (line 10 of each
`lib.rs`). -/
def logMsg : ProgramUnit → String
  | .escrow   => "FARTNODE escrow program stub"
  | .points   => "FARTNODE points program stub"
  | .quests   => "FARTNODE quests program stub"
  | .registry => "FARTNODE registry program stub"

/-- The `#[derive(Accounts)] pub struct Initialize {}` of each unit: it
declares zero account references, so the Lean structure has zero fields. -/
structure Initialize where

/-- Anchor's `Context<Initialize>` as received by the entry point: the
program id the runtime routed to, the (empty) accounts struct, and the
remaining account addresses the caller attached.  The stub bodies never
inspect any of these fields. -/
structure Context where
  programId : String
  accounts : Initialize
  remainingAccounts : List String

/-- Anchor's error type, as far as the stubs are concerned: an error code.
No stub ever constructs a value of this type. -/
inductive AnchorError where
  | anchorError (code : Nat)
deriving DecidableEq

/-- The hosting runtime's persisted account store, mapping an account
address to its data bytes.  No stub declares, reads or writes any
account. -/
def Store : Type := String → Option (List Nat)

/-- The observable outcome of one invocation: the diagnostic log records
emitted by `msg!` (in emission order) and the returned `Result<()>`. -/
structure InvocationResult where
  logs : List String
  result : Except AnchorError Unit

/-- The body of `fartnode_<unit>::initialize` (lines 9–12 of each
`lib.rs`): emit the unit's fixed `msg!` string, return `Ok(())`, and leave
the persisted store untouched.  The context parameter is named `_ctx` in
the source and never used. -/
def initializeFn (u : ProgramUnit) ( _ctx : Context) (s : Store) :
    InvocationResult × Store :=
  ({ logs := [logMsg u], result := Except.ok () }, s)

/-- One externally callable operation of a `#[program]` module: its
instruction name, the number of instruction-data parameters its handler
takes after the context argument, and its handler. -/
structure EntryPoint where
  name : String
  dataParams : Nat
  run : Context → Store → InvocationResult × Store

/-- The `#[program] mod fartnode_<unit>` module: the list of externally
callable operations it exposes.  Each of the four modules contains exactly
the one function `pub fn initialize(_ctx: Context<Initialize>) ->
Result<()>`, which has no instruction-data parameters. -/
def programEntryPoints (u : ProgramUnit) : List EntryPoint :=
  [{ name := "initialize", dataParams := 0, run := initializeFn u }]

/-- Invoke unit `u`'s entry point `n` times in sequence against store `s`,
threading the store from call to call and collecting each call's
invocation result in order. -/
def invokeN (u : ProgramUnit) (ctx : Context) : Nat → Store → List InvocationResult × Store
  | 0, s => ([], s)
  | n + 1, s =>
    let p := initializeFn u ctx s
    let q := invokeN u ctx n p.2
    (p.1 :: q.1, q.2)

/-- The statement forms a stub body could contain, including the forms of
Rust statement that abort at run time (an explicit panic, an out-of-bounds
index, a division by zero), so that the evaluator below can fail. -/
inductive Stmt where
  | msgStmt (s : String)
  | retOk
  | panicStmt (s : String)
  | indexStmt (xs : List Nat) (i : Nat)
  | divStmt (a b : Nat)

/-- The body of `fartnode_<unit>::initialize`, transcribed statement by
statement from lines 10–11 of each `lib.rs`: one `msg!` call, then the
final expression `Ok(())`. -/
def initBody (u : ProgramUnit) : List Stmt :=
  [Stmt.msgStmt (logMsg u), Stmt.retOk]

/-- Evaluate a body with the logs emitted so far (most recent first).
`none` models an abnormal termination: a panic, an out-of-bounds index, a
division by zero, or falling off the end without producing a value. -/
def evalBody (logs : List String) : List Stmt → Option InvocationResult
  | [] => none
  | Stmt.retOk :: _ => some { logs := logs.reverse, result := Except.ok () }
  | Stmt.msgStmt s :: rest => evalBody (s :: logs) rest
  | Stmt.panicStmt _ :: _ => none
  | Stmt.indexStmt xs i :: rest =>
      if i < xs.length then evalBody logs rest else none
  | Stmt.divStmt _ b :: rest =>
      if b = 0 then none else evalBody logs rest

/-- `charListPrefix p l` holds when `p` is a prefix of `l`. -/
def charListPrefix : List Char → List Char → Bool
  | [], _ => true
  | _ :: _, [] => false
  | a :: as, b :: bs => a == b && charListPrefix as bs

/-- `hasSubstr needle hay` holds when `needle` occurs contiguously inside
`hay`. -/
def hasSubstr (needle : List Char) : List Char → Bool
  | [] => needle.isEmpty
  | c :: t => charListPrefix needle (c :: t) || hasSubstr needle t

/-- A string is a repeated-digit placeholder: nonempty, and every character
equals its first character, which is a decimal digit. -/
def isRepeatedDigit (s : String) : Bool :=
  match s.data with
  | [] => false
  | c :: cs => c.isDigit && cs.all (· == c)

/-- The four units, listed once for pairwise statements. -/
def allUnits : List ProgramUnit :=
  [ProgramUnit.escrow, ProgramUnit.points, ProgramUnit.quests, ProgramUnit.registry]

/-- C1: for each of the four units and every invocation context and store,
the entry point returns `Ok(())`: the error branch of its `Result` is
unreachable. -/
theorem initialize_always_succeeds :
    ∀ (u : ProgramUnit) (ctx : Context) (s : Store),
      (initializeFn u ctx s).1.result = Except.ok () := by
  intro u ctx s
  rfl

/-- C2: one call to the entry point emits exactly one log record and has no
other observable effect: the store is returned unchanged (no state
written), the invocation result does not depend on the store (no state
read), and the success value carries no payload. -/
theorem initialize_frame :
    ∀ (u : ProgramUnit) (ctx : Context) (s s₂ : Store),
      (initializeFn u ctx s).1.logs.length = 1 ∧
      (initializeFn u ctx s).2 = s ∧
      (initializeFn u ctx s).1 = (initializeFn u ctx s₂).1 ∧
      (initializeFn u ctx s).1.result = Except.ok () := by
  intro u ctx s s₂
  exact ⟨rfl, rfl, rfl, rfl⟩

/-- C3: each unit's entry point succeeds and its single log line contains
the unit's subsystem name ("escrow", "points", "quests", "registry") and
the word "stub", a fixed component-specific string. -/
theorem initialize_log_content :
    ∀ (u : ProgramUnit) (ctx : Context) (s : Store),
      (initializeFn u ctx s).1.result = Except.ok () ∧
      (initializeFn u ctx s).1.logs = [logMsg u] ∧
      hasSubstr (unitName u).data (logMsg u).data = true ∧
      hasSubstr "stub".data (logMsg u).data = true := by
  intro u ctx s
  refine ⟨rfl, rfl, ?_, ?_⟩ <;> cases u <;> decide

/-- C4: the four declared program identifiers are pairwise distinct, and
the list checked enumerates every unit. -/
theorem declared_ids_distinct :
    List.Pairwise (fun a b => declaredId a ≠ declaredId b) allUnits ∧
    ∀ u : ProgramUnit, u ∈ allUnits := by
  constructor
  · decide
  · intro u
    cases u <;> decide

/-- C5: invoking a unit's entry point `n` times in sequence yields `n`
successes, every one identical (so no call's outcome depends on earlier
calls), and the store comes back unchanged after the whole sequence. -/
theorem invokeN_independent_successes :
    ∀ (u : ProgramUnit) (ctx : Context) (s : Store) (n : Nat),
      (invokeN u ctx n s).1 =
        List.replicate n { logs := [logMsg u], result := Except.ok () } ∧
      (invokeN u ctx n s).2 = s := by
  intro u ctx s n
  induction n with
  | zero => exact ⟨rfl, rfl⟩
  | succ n ih =>
      refine ⟨?_, ?_⟩
      · simp only [invokeN, List.replicate_succ]
        exact congrArg _ ih.1
      · exact ih.2

/-- C6: each unit's program module exposes exactly one externally callable
operation, named "initialize", whose handler takes zero instruction-data
parameters, and the `Initialize` accounts struct declares zero account
references (its type has a single value). -/
theorem single_entry_point :
    ∀ u : ProgramUnit,
      (programEntryPoints u).length = 1 ∧
      (programEntryPoints u).map EntryPoint.name = ["initialize"] ∧
      (programEntryPoints u).map EntryPoint.dataParams = [0] ∧
      ∀ a b : Initialize, a = b := by
  intro u
  exact ⟨rfl, rfl, rfl, fun a b => rfl⟩

/-- C7: each of the four declared identifier values is a placeholder
string consisting of a single decimal digit repeated. -/
theorem declared_ids_placeholder :
    ∀ u : ProgramUnit, isRepeatedDigit (declaredId u) = true := by
  intro u
  cases u <;> decide

/-- C8: the entry point never inspects its context: any two contexts give
the same invocation result and the same single log string. -/
theorem initialize_context_independent :
    ∀ (u : ProgramUnit) (c₁ c₂ : Context) (s : Store),
      initializeFn u c₁ s = initializeFn u c₂ s := by
  intro u c₁ c₂ s
  rfl

/-- C9: the entry point's body, evaluated under a semantics in which a
panic, an out-of-bounds index or a division by zero aborts, always
terminates normally with a value, and that value is the one the direct
embedding returns. -/
theorem initialize_body_total :
    ∀ u : ProgramUnit,
      evalBody [] (initBody u) =
        some { logs := [logMsg u], result := Except.ok () } ∧
      ∀ (ctx : Context) (s : Store),
        (initializeFn u ctx s).1 =
          { logs := [logMsg u], result := Except.ok () } := by
  intro u
  exact ⟨rfl, fun ctx s => rfl⟩

/-- C10: the four fixed log strings are pairwise distinct and each one
begins with the prefix "FARTNODE " followed by the unit's subsystem
name. -/
theorem logs_distinct_and_prefixed :
    List.Pairwise (fun a b => logMsg a ≠ logMsg b) allUnits ∧
    ∀ u : ProgramUnit,
      charListPrefix ("FARTNODE " ++ unitName u).data (logMsg u).data = true := by
  constructor
  · decide
  · intro u
    cases u <;> decide

end Fartnode
